import Mathlib

/-!
# Shallow embedding of `src/EIA_US_Refinery_Utilization.py`

The script is a linear pipeline: for each of six regions it fetches a JSON
response, normalizes the records into a date-sorted numeric series, computes
trailing rolling-window analytics (width 4), collects the successful regions
into one mapping, and renders a dashboard (trend panels, a comparison panel
with a 2022-01-01 cutoff, a volatility bar chart) unless the mapping is empty,
in which case it raises `SystemExit("No data to plot.")` before any rendering.

Modelling choices:
* Dates (`pd.to_datetime` results) are days-since-epoch integers `Int`;
  the string cutoff `'2022-01-01'` is the constant `18993`.
* Numeric values are `ℚ`; `pd.to_numeric(..., errors='coerce')` is modelled
  by `Option ℚ` on raw records (`none` = NaN after coercion).
* `df.sort_values('Date')` is a stable sort by date (`List.insertionSort`).
* `dropna(subset=['Utilization_Rate'])` is a filter on `Option.isSome`.
* `rolling(window=4).mean()` / `.std()` follow pandas trailing-window
  semantics: defined at position `i` iff `3 ≤ i < length`, over the window
  of positions `i-3 .. i`; `.std()` uses the sample convention (`ddof=1`).
  Standard deviations are square roots, hence live in `ℝ`
  (`Real.sqrt` of the rational sample variance).
* The per-region `try/except` is modelled by `processRegion` returning
  `Option`; the `dfs[name] = df` insertions by a fold appending to an
  association list (Python dict insertion order).
-/

namespace Refinery

/-- One element of `response['response']['data']` after field selection:
`period` as parsed by `pd.to_datetime` (days since epoch) and `value` as
produced by `pd.to_numeric(..., errors='coerce')` (`none` models NaN). -/
structure RawRecord where
  period : Int
  value : Option ℚ
deriving DecidableEq, Repr

/-- A region label (Python dict key of `series_ids`). -/
abbrev Region := String

/-- A normalized per-region series: the rows of the cleaned `DataFrame`.
After `dropna` every `value` is `some`. -/
abbrev RegionSeries := List RawRecord

/-- The comparison order used by `df.sort_values('Date')`. -/
def dateLE (a b : RawRecord) : Prop := a.period ≤ b.period

instance : DecidableRel dateLE := fun a b => inferInstanceAs (Decidable (a.period ≤ b.period))

instance : IsTotal RawRecord dateLE := ⟨fun a b => Int.le_total a.period b.period⟩

instance : IsTrans RawRecord dateLE := ⟨fun _ _ _ h h' => le_trans h h'⟩

instance : IsRefl RawRecord dateLE := ⟨fun a => le_refl a.period⟩

/-- `df.sort_values('Date')`. The script uses the default `kind='quicksort'`,
which pandas documents as not stable, so the source guarantees only *some*
permutation sorted by `Date`; this model fixes one such permutation (a stable
insertion sort). No theorem below depends on the order chosen among rows with
equal dates. -/
def sortByDate (rs : List RawRecord) : List RawRecord :=
  List.insertionSort dateLE rs

/-- `df.dropna(subset=['Utilization_Rate'])`. -/
def dropna (rs : List RawRecord) : List RawRecord :=
  rs.filter (fun r => r.value.isSome)

/-- Line 60 of the script: `df = df.sort_values('Date').dropna(subset=['Utilization_Rate'])`. -/
def normalize (rs : List RawRecord) : RegionSeries :=
  dropna (sortByDate rs)

/-- The `Utilization_Rate` column of a normalized series. -/
def utilCol (s : RegionSeries) : List ℚ :=
  s.filterMap (fun r => r.value)

/-- The trailing window of width 4 ending at position `i`: positions `i-3 .. i`. -/
def window4 (xs : List ℚ) (i : ℕ) : List ℚ :=
  (xs.drop (i - 3)).take 4

/-- Arithmetic mean of a list of rationals. -/
def arithMean (ys : List ℚ) : ℚ :=
  ys.sum / ys.length

/-- Sample variance (pandas `ddof=1` convention, the square of `Series.std`). -/
def sampleVar (ys : List ℚ) : ℚ :=
  ((ys.map (fun y => (y - arithMean ys) ^ 2)).sum) / ((ys.length : ℚ) - 1)

/-- `df['Utilization_Rate'].rolling(window=4).mean()` at position `i`
(line 67: the `4W_MA` column). `none` models NaN. -/
def rollingMean4 (xs : List ℚ) (i : ℕ) : Option ℚ :=
  if 3 ≤ i ∧ i < xs.length then some (arithMean (window4 xs i)) else none

/-- The square of `df['Utilization_Rate'].rolling(window=4).std()` at position
`i` (line 68: the `Volatility` column, squared to stay rational). -/
def rollingVar4 (xs : List ℚ) (i : ℕ) : Option ℚ :=
  if 3 ≤ i ∧ i < xs.length then some (sampleVar (window4 xs i)) else none

/-- `df['Utilization_Rate'].rolling(window=4).std()` at position `i`
(line 68: the `Volatility` column). -/
noncomputable def rollingStd4 (xs : List ℚ) (i : ℕ) : Option ℝ :=
  (rollingVar4 xs i).map (fun v => Real.sqrt (v : ℝ))

/-- The defined (non-NaN) entries of the `Volatility` column of a series,
in positional order. -/
noncomputable def volCol (s : RegionSeries) : List ℝ :=
  (List.range (utilCol s).length).filterMap (fun i => rollingStd4 (utilCol s) i)

/-- The JSON body of one per-region request, after the shape check of
lines 47-49: `malformed` models a response missing `response` or
`response.data` (which raises `ValueError`), `ok data` the field
`response['response']['data']`. -/
inductive Response
  | malformed
  | ok (data : List RawRecord)
deriving DecidableEq, Repr

/-- The body of the per-region `try` block (lines 45-70): `none` means the
region is skipped (shape failure raising `ValueError`, empty `data`,
or empty frame after cleaning), `some s` means `dfs[name] = s` runs. -/
def processRegion : Response → Option RegionSeries
  | .malformed => none
  | .ok data =>
    if data.isEmpty then none
    else
      let df := normalize data
      if df.isEmpty then none else some df

/-- One iteration of the fetch loop: the mapping `dfs` is unchanged on any
per-region failure and receives `(r, s)` as its last entry on success. -/
def stepRegion (fetch : Region → Response) (dfs : List (Region × RegionSeries))
    (r : Region) : List (Region × RegionSeries) :=
  match processRegion (fetch r) with
  | none => dfs
  | some s => dfs ++ [(r, s)]

/-- The whole fetch loop (lines 42-73) producing the mapping `dfs`
(a Python dict in insertion order, modelled as an association list). -/
def buildMapping (fetch : Region → Response) (regions : List Region) :
    List (Region × RegionSeries) :=
  regions.foldl (stepRegion fetch) []

/-- The region labels, in the iteration order of the `series_ids` dict. -/
def regionNames : List Region :=
  ["U.S. Total", "PADD 1", "PADD 2", "PADD 3", "PADD 4", "PADD 5"]

/-- Outcome of the run after the fetch loop: `exited msg` models
`raise SystemExit(msg)` at line 77 (before any figure is created), `rendered m`
models the dashboard being drawn and saved from mapping `m`. -/
inductive RunResult
  | exited (msg : String)
  | rendered (m : List (Region × RegionSeries))
deriving DecidableEq, Repr

/-- Lines 75-77 followed by the rendering section: abort when `dfs` is
empty, otherwise render from it. -/
def run (fetch : Region → Response) : RunResult :=
  let m := buildMapping fetch regionNames
  if m.isEmpty then .exited "No data to plot." else .rendered m

/-- Whether `refinery_dashboard.png` is written by the run: `plt.savefig`
(line 136) is reached only on the `rendered` path. -/
def imageWritten : RunResult → Bool
  | .exited _ => false
  | .rendered _ => true

/-- The trend panels (lines 86-101): the first 6 entries of the mapping in
iteration order. -/
def trendPanels (m : List (Region × RegionSeries)) : List (Region × RegionSeries) :=
  m.take 6

/-- `pd.to_datetime('2022-01-01')` as days since epoch. -/
def cutoffDate : Int := 18993

/-- One line of the comparison panel: its legend label, its plotted rows, and
its line width (in points, as a rational). -/
structure CompLine where
  label : Region
  pts : List RawRecord
  linewidth : ℚ
deriving DecidableEq, Repr

/-- The comparison-panel loop (lines 106-114): for every mapping entry, filter
to `Date >= '2022-01-01'` and plot with `label=name`; width 2.5 for
`'PADD 3'`, otherwise 1.5. -/
def comparisonPanel (m : List (Region × RegionSeries)) : List CompLine :=
  m.map (fun p =>
    { label := p.1,
      pts := p.2.filter (fun row => cutoffDate ≤ row.period),
      linewidth := if p.1 = "PADD 3" then 5 / 2 else 3 / 2 })

/-- `Series.mean()` with pandas NaN semantics on an already NaN-free list:
`none` (NaN) iff the list is empty. -/
noncomputable def seriesMean (l : List ℝ) : Option ℝ :=
  if l.isEmpty then none else some (l.sum / l.length)

/-- `Series.std()` with pandas NaN semantics on an already NaN-free list:
sample standard deviation (`ddof=1`), `none` (NaN) iff fewer than 2 entries. -/
noncomputable def seriesStd (l : List ℝ) : Option ℝ :=
  if l.length < 2 then none
  else some (Real.sqrt (((l.map (fun x => (x - l.sum / l.length) ^ 2)).sum) / ((l.length : ℝ) - 1)))

/-- The volatility bar chart (lines 124-127): per region, the bar height
`df['Volatility'].mean()` and the error bar `df['Volatility'].std()`
(pandas skips the NaN entries of the column, i.e. uses `volCol`). -/
noncomputable def volatilityBars (m : List (Region × RegionSeries)) :
    List (Region × Option ℝ × Option ℝ) :=
  m.map (fun p => (p.1, seriesMean (volCol p.2), seriesStd (volCol p.2)))

/-! ## Spec-side definitions (phrased from the specification, for comparison) -/

/-- The spec's window "indices i-3 .. i", read off entry by entry. -/
def specWindow (xs : List ℚ) (i : ℕ) : List ℚ :=
  (List.range 4).map (fun j => xs.getD (i - 3 + j) 0)

/-- The spec's "arithmetic mean ... computed over only the defined entries",
for a list of reals. -/
noncomputable def specMeanR (l : List ℝ) : ℝ :=
  l.sum / l.length

/-- The spec's "sample standard deviation" of a list of reals. -/
noncomputable def specSampleStdR (l : List ℝ) : ℝ :=
  Real.sqrt (((l.map (fun x => (x - specMeanR l) ^ 2)).sum) / ((l.length : ℝ) - 1))

/-! ## Concrete inputs used by examples, witnesses and counterexamples -/

/-- The spec's example utilization series 90,91,89,92,90,93,91,94,92,95. -/
def exampleSeries : List ℚ :=
  [90, 91, 89, 92, 90, 93, 91, 94, 92, 95]

/-- A raw record list with a repeated period value (both values parseable). -/
def dupRecords : List RawRecord :=
  [⟨0, some 90⟩, ⟨0, some 91⟩]

/-- A raw record list with distinct period values, given out of order. -/
def distinctRecords : List RawRecord :=
  [⟨1, some 90⟩, ⟨0, some 91⟩]

/-- A small well-formed raw payload with four parseable weekly rows. -/
def sampleData : List RawRecord :=
  [⟨21, some 92⟩, ⟨14, some 89⟩, ⟨7, some 91⟩, ⟨0, some 90⟩]

/-- A fetch function on which every region's response is malformed
(the shape every request takes with an absent or invalid credential). -/
def allMalformed : Region → Response :=
  fun _ => .malformed

/-- A fetch function on which the region `"PADD 1"` yields a malformed
response and every other region succeeds with `sampleData`. -/
def oneMalformed : Region → Response :=
  fun r => if r = "PADD 1" then .malformed else .ok sampleData

/-- A fetch function on which the region `"PADD 2"` yields a well-formed but
empty data array and every other region succeeds with `sampleData`. -/
def oneEmpty : Region → Response :=
  fun r => if r = "PADD 2" then .ok [] else .ok sampleData

/-- A fetch that answers `sampleData` everywhere. -/
def fetchA : Region → Response :=
  fun _ => .ok sampleData

/-- A fetch that agrees with `fetchA` on every short label (hence on all six
region labels) but not elsewhere. -/
def fetchB : Region → Response :=
  fun r => if r.length ≤ 20 then .ok sampleData else .malformed

/-! ## Helper lemmas -/

theorem window4_eq_specWindow (xs : List ℚ) (i : ℕ) (h3 : 3 ≤ i) (hi : i < xs.length) :
    window4 xs i = specWindow xs i := by
  apply List.ext_getElem
  · simp only [window4, specWindow, List.length_take, List.length_drop,
      List.length_map, List.length_range]
    omega
  · intro j hj hj'
    simp only [window4, specWindow, List.length_take, List.length_drop] at hj
    simp only [window4, specWindow, List.getElem_take, List.getElem_drop,
      List.getElem_map, List.getElem_range]
    rw [List.getD_eq_getElem _ _ (by omega)]

theorem rollingMean4_example : rollingMean4 exampleSeries 3 = some (181 / 2) := by
  rw [rollingMean4, if_pos (by norm_num [exampleSeries]),
    show window4 exampleSeries 3 = [90, 91, 89, 92] from rfl]
  norm_num [arithMean]

theorem rollingVar4_example : rollingVar4 exampleSeries 3 = some (5 / 3) := by
  rw [rollingVar4, if_pos (by norm_num [exampleSeries]),
    show window4 exampleSeries 3 = [90, 91, 89, 92] from rfl]
  norm_num [sampleVar, arithMean]

/-- C1: for every region series and every index, the `4W_MA` column equals the
arithmetic mean of `Utilization_Rate` over indices `i-3 .. i` and the
`Volatility` column equals the sample standard deviation of the same four
values (stated through its square, the sample variance), both being absent for
`i < 3`; moreover on the series 90,91,89,92,90,93,91,94,92,95 the first
defined rolling mean (index 3) is 90.5 and the first defined rolling standard
deviation lies strictly between 1.29 and 1.292. -/
theorem rolling_window_semantics (xs : List ℚ) (i : ℕ) :
    (3 ≤ i → i < xs.length →
      rollingMean4 xs i = some (arithMean (specWindow xs i)) ∧
      rollingVar4 xs i = some (sampleVar (specWindow xs i))) ∧
    (i < 3 → rollingMean4 xs i = none ∧ rollingVar4 xs i = none) ∧
    rollingMean4 exampleSeries 3 = some (181 / 2) ∧
    rollingVar4 exampleSeries 3 = some (5 / 3) ∧
    ∃ s, rollingStd4 exampleSeries 3 = some s ∧ 129 / 100 < s ∧ s < 1292 / 1000 := by
  refine ⟨?_, ?_, ?_, ?_, ?_⟩
  · intro h3 hi
    rw [rollingMean4, rollingVar4, if_pos ⟨h3, hi⟩, if_pos ⟨h3, hi⟩,
      window4_eq_specWindow xs i h3 hi]
    exact ⟨rfl, rfl⟩
  · intro h
    rw [rollingMean4, rollingVar4, if_neg (by omega), if_neg (by omega)]
    exact ⟨rfl, rfl⟩
  · exact rollingMean4_example
  · exact rollingVar4_example
  · refine ⟨Real.sqrt (((5 : ℚ) / 3 : ℚ) : ℝ), ?_, ?_, ?_⟩
    · rw [rollingStd4, rollingVar4_example]
      rfl
    · rw [Real.lt_sqrt (by norm_num)]
      push_cast
      norm_num
    · rw [Real.sqrt_lt' (by norm_num)]
      push_cast
      norm_num

theorem rolling_window_semantics_witness :
    rollingMean4 exampleSeries 4 = some (arithMean (specWindow exampleSeries 4)) ∧
    rollingVar4 exampleSeries 4 = some (sampleVar (specWindow exampleSeries 4)) ∧
    rollingMean4 exampleSeries 2 = none :=
  ⟨((rolling_window_semantics exampleSeries 4).1 (by decide) (by decide)).1,
   ((rolling_window_semantics exampleSeries 4).1 (by decide) (by decide)).2,
   ((rolling_window_semantics exampleSeries 2).2.1 (by decide)).1⟩

theorem sorted_sortByDate (rs : List RawRecord) : List.Sorted dateLE (sortByDate rs) :=
  List.sorted_insertionSort dateLE rs

theorem sorted_normalize (rs : List RawRecord) : List.Sorted dateLE (normalize rs) :=
  (sorted_sortByDate rs).filter _

theorem nodup_periods_normalize (rs : List RawRecord)
    (h : (rs.map RawRecord.period).Nodup) :
    ((normalize rs).map RawRecord.period).Nodup := by
  have hperm : ((sortByDate rs).map RawRecord.period).Perm (rs.map RawRecord.period) :=
    (List.perm_insertionSort dateLE rs).map _
  have h1 : ((sortByDate rs).map RawRecord.period).Nodup := hperm.nodup_iff.mpr h
  have hsub : List.Sublist ((normalize rs).map RawRecord.period)
      ((sortByDate rs).map RawRecord.period) :=
    (List.filter_sublist _).map _
  exact h1.sublist hsub

/-- C2, counterexample: feeding the normalizer two parseable records with the
same period value produces a series that appears in the final mapping but
whose dates are not strictly increasing. -/
theorem strict_dates_counterexample :
    ("U.S. Total", normalize dupRecords) ∈
      buildMapping (fun _ => .ok dupRecords) regionNames ∧
    ¬ List.Chain' (fun a b => a.period < b.period) (normalize dupRecords) := by
  constructor
  · decide
  · intro hch
    rw [show normalize dupRecords = [⟨0, some 90⟩, ⟨0, some 91⟩] from rfl] at hch
    exact absurd (List.chain'_cons.mp hch).1 (by decide)

/-- C2, amended: for every raw record list, the normalized series has
non-decreasing (sorted) dates and no missing `Utilization_Rate` value; the
dates are strictly increasing whenever the raw period values are pairwise
distinct (the code never deduplicates, so repeated periods survive as equal
adjacent dates). -/
theorem normalize_sorted_and_clean (rs : List RawRecord) :
    List.Chain' (fun a b => a.period ≤ b.period) (normalize rs) ∧
    (∀ row ∈ normalize rs, row.value.isSome = true) ∧
    ((rs.map RawRecord.period).Nodup →
      List.Chain' (fun a b => a.period < b.period) (normalize rs)) := by
  refine ⟨?_, ?_, ?_⟩
  · exact List.Pairwise.chain' (sorted_normalize rs)
  · intro row hrow
    have : row ∈ List.filter (fun r => r.value.isSome) (sortByDate rs) := hrow
    exact (List.mem_filter.mp this).2
  · intro h
    have hle : List.Pairwise dateLE (normalize rs) := sorted_normalize rs
    have hne : List.Pairwise (fun a b : RawRecord => a.period ≠ b.period) (normalize rs) :=
      List.pairwise_map.mp (nodup_periods_normalize rs h)
    exact List.Pairwise.chain'
      ((hle.and hne).imp (fun hab => lt_of_le_of_ne hab.1 hab.2))

theorem normalize_sorted_and_clean_witness :
    List.Chain' (fun a b => a.period ≤ b.period) (normalize dupRecords) ∧
    List.Chain' (fun a b => a.period < b.period) (normalize distinctRecords) :=
  ⟨(normalize_sorted_and_clean dupRecords).1,
   (normalize_sorted_and_clean distinctRecords).2.2 (by decide)⟩

theorem foldl_stepRegion (fetch : Region → Response) (rgs : List Region)
    (acc : List (Region × RegionSeries)) :
    rgs.foldl (stepRegion fetch) acc
      = acc ++ rgs.filterMap (fun x => (processRegion (fetch x)).map (fun s => (x, s))) := by
  induction rgs generalizing acc with
  | nil => simp
  | cons x xs ih =>
    rw [List.foldl_cons, List.filterMap_cons]
    cases h : processRegion (fetch x) with
    | none => rw [ih]; simp [stepRegion, h]
    | some s => rw [ih]; simp [stepRegion, h]

theorem buildMapping_eq (fetch : Region → Response) (rgs : List Region) :
    buildMapping fetch rgs
      = rgs.filterMap (fun x => (processRegion (fetch x)).map (fun s => (x, s))) := by
  rw [buildMapping, foldl_stepRegion]
  simp

theorem filterMap_filter_ne {α β : Type} [DecidableEq α] (F : α → Option β) (r : α)
    (hF : F r = none) (l : List α) :
    l.filterMap F = (l.filter (fun x => x ≠ r)).filterMap F := by
  induction l with
  | nil => rfl
  | cons x xs ih =>
    by_cases hx : x = r
    · subst hx
      simp [List.filter_cons, List.filterMap_cons, hF, ih]
    · cases hFx : F x with
      | none => simp [List.filter_cons, List.filterMap_cons, hx, hFx, ih]
      | some b => simp [List.filter_cons, List.filterMap_cons, hx, hFx, ih]

theorem not_mem_buildMapping_of_failure (fetch : Region → Response) (rgs : List Region)
    (r : Region) (h : processRegion (fetch r) = none) :
    ∀ s, (r, s) ∉ buildMapping fetch rgs := by
  intro s hs
  rw [buildMapping_eq] at hs
  obtain ⟨x, _, hmap⟩ := List.mem_filterMap.mp hs
  obtain ⟨a, ha, hpair⟩ := Option.map_eq_some'.mp hmap
  have hx : x = r := congrArg Prod.fst hpair
  rw [hx, h] at ha
  exact Option.noConfusion ha

/-- C3: when every region's response is malformed (the shape every request
takes with an absent or invalid credential), the final mapping is empty, the
run exits abnormally with the message "No data to plot." before any
rendering, and `refinery_dashboard.png` is not written. -/
theorem all_regions_fail_no_render (fetch : Region → Response)
    (h : ∀ r, fetch r = .malformed) :
    buildMapping fetch regionNames = [] ∧
    run fetch = .exited "No data to plot." ∧
    imageWritten (run fetch) = false := by
  have hm : buildMapping fetch regionNames = [] := by
    rw [buildMapping_eq]
    refine List.filterMap_eq_nil_iff.mpr (fun x _ => ?_)
    rw [h x]
    rfl
  refine ⟨hm, ?_, ?_⟩
  · simp [run, hm]
  · simp [run, hm, imageWritten]

theorem all_regions_fail_no_render_witness :
    run allMalformed = .exited "No data to plot." ∧
    imageWritten (run allMalformed) = false :=
  ⟨(all_regions_fail_no_render allMalformed (fun _ => rfl)).2.1,
   (all_regions_fail_no_render allMalformed (fun _ => rfl)).2.2⟩

/-- C4: a region whose response lacks the expected top-level fields is a
per-region failure: it is absent from the final mapping and the mapping is
exactly the one built from the remaining regions alone. -/
theorem malformed_region_skipped (fetch : Region → Response) (rgs : List Region)
    (r : Region) (h : fetch r = .malformed) :
    (∀ s, (r, s) ∉ buildMapping fetch rgs) ∧
    buildMapping fetch rgs = buildMapping fetch (rgs.filter (fun x => x ≠ r)) := by
  have hnone : processRegion (fetch r) = none := by rw [h]; rfl
  constructor
  · exact not_mem_buildMapping_of_failure fetch rgs r hnone
  · rw [buildMapping_eq, buildMapping_eq]
    exact filterMap_filter_ne _ r (by rw [hnone]; rfl) rgs

theorem malformed_region_skipped_witness :
    (∀ s, ("PADD 1", s) ∉ buildMapping oneMalformed regionNames) ∧
    buildMapping oneMalformed regionNames
      = buildMapping oneMalformed (regionNames.filter (fun x => x ≠ "PADD 1")) :=
  malformed_region_skipped oneMalformed regionNames "PADD 1" rfl

/-- C5: a region whose response carries a well-formed but empty data array is
absent from the final mapping, hence from every trend panel, every
comparison-panel line and every volatility bar; and when the mapping is
nonetheless nonempty (some other region succeeded) the run still renders and
writes the image. -/
theorem empty_data_region_absent (fetch : Region → Response) (rgs : List Region)
    (r : Region) (h : fetch r = .ok []) :
    (∀ s, (r, s) ∉ buildMapping fetch rgs) ∧
    (∀ s, (r, s) ∉ trendPanels (buildMapping fetch rgs)) ∧
    (∀ line ∈ comparisonPanel (buildMapping fetch rgs), line.label ≠ r) ∧
    (∀ bar ∈ volatilityBars (buildMapping fetch rgs), bar.1 ≠ r) ∧
    (buildMapping fetch regionNames ≠ [] →
      run fetch = .rendered (buildMapping fetch regionNames) ∧
      imageWritten (run fetch) = true) := by
  have hnone : processRegion (fetch r) = none := by rw [h]; rfl
  have habs := not_mem_buildMapping_of_failure fetch rgs r hnone
  refine ⟨habs, ?_, ?_, ?_, ?_⟩
  · intro s hs
    exact habs s (List.mem_of_mem_take hs)
  · intro line hline hlab
    obtain ⟨p, hp, hpl⟩ := List.mem_map.mp hline
    have : p.1 = r := by rw [← hlab, ← hpl]
    exact habs p.2 (by rw [← this]; exact hp)
  · intro bar hbar hlab
    obtain ⟨p, hp, hpl⟩ := List.mem_map.mp hbar
    have : p.1 = r := by rw [← hlab, ← hpl]
    exact habs p.2 (by rw [← this]; exact hp)
  · intro hne
    constructor
    · simp [run, List.isEmpty_iff, hne]
    · simp [run, List.isEmpty_iff, hne, imageWritten]

theorem empty_data_region_absent_witness :
    (∀ s, ("PADD 2", s) ∉ buildMapping oneEmpty regionNames) ∧
    (∀ line ∈ comparisonPanel (buildMapping oneEmpty regionNames), line.label ≠ "PADD 2") :=
  ⟨(empty_data_region_absent oneEmpty regionNames "PADD 2" rfl).1,
   (empty_data_region_absent oneEmpty regionNames "PADD 2" rfl).2.2.1⟩

/-- C8: per-region processing is atomic with respect to the shared mapping:
one loop iteration either leaves the mapping exactly unchanged (any failure)
or appends the single fully-built entry as its last step (success); no
partial entry is ever present. -/
theorem per_region_atomicity (fetch : Region → Response)
    (dfs : List (Region × RegionSeries)) (r : Region) :
    (processRegion (fetch r) = none → stepRegion fetch dfs r = dfs) ∧
    (∀ s, processRegion (fetch r) = some s → stepRegion fetch dfs r = dfs ++ [(r, s)]) := by
  constructor
  · intro h
    rw [stepRegion, h]
  · intro s h
    rw [stepRegion, h]

theorem per_region_atomicity_witness :
    stepRegion allMalformed [("U.S. Total", normalize sampleData)] "PADD 1"
      = [("U.S. Total", normalize sampleData)] ∧
    stepRegion fetchA [] "PADD 1" = [] ++ [("PADD 1", normalize sampleData)] :=
  ⟨(per_region_atomicity allMalformed [("U.S. Total", normalize sampleData)] "PADD 1").1 rfl,
   (per_region_atomicity fetchA [] "PADD 1").2 (normalize sampleData) rfl⟩

/-- C10: the mapping-building stage is deterministic: two fetch functions that
return identical responses on every region yield identical mappings, entry
for entry (hence identical derived panels, bars and insertion order). -/
theorem deterministic_mapping (f g : Region → Response) (rgs : List Region)
    (h : ∀ r ∈ rgs, f r = g r) :
    buildMapping f rgs = buildMapping g rgs ∧
    comparisonPanel (buildMapping f rgs) = comparisonPanel (buildMapping g rgs) ∧
    volatilityBars (buildMapping f rgs) = volatilityBars (buildMapping g rgs) ∧
    (buildMapping f rgs).map Prod.fst = (buildMapping g rgs).map Prod.fst := by
  have hm : buildMapping f rgs = buildMapping g rgs := by
    rw [buildMapping_eq, buildMapping_eq]
    exact List.filterMap_congr (fun x hx => by rw [h x hx])
  exact ⟨hm, by rw [hm], by rw [hm], by rw [hm]⟩

theorem deterministic_mapping_witness :
    buildMapping fetchA regionNames = buildMapping fetchB regionNames :=
  (deterministic_mapping fetchA fetchB regionNames (by decide)).1

/-- C6: every mapping entry contributes one comparison-panel line holding
exactly its rows dated on/after 2022-01-01, labelled with the region name
(so a region whose rows all predate the cutoff still gets a legend entry,
with an empty line), and a line has the heavier width 2.5 exactly when its
region is "PADD 3" (all others get 1.5). -/
theorem comparison_panel_content (m : List (Region × RegionSeries)) :
    (∀ p ∈ m,
      ({ label := p.1,
         pts := p.2.filter (fun row => cutoffDate ≤ row.period),
         linewidth := if p.1 = "PADD 3" then 5 / 2 else 3 / 2 } : CompLine)
        ∈ comparisonPanel m) ∧
    (∀ line ∈ comparisonPanel m, ∃ p ∈ m,
      line.label = p.1 ∧
      line.pts = p.2.filter (fun row => cutoffDate ≤ row.period) ∧
      line.linewidth = if p.1 = "PADD 3" then 5 / 2 else 3 / 2) ∧
    (∀ p ∈ m, (∀ row ∈ p.2, row.period < cutoffDate) →
      ∃ line ∈ comparisonPanel m, line.label = p.1 ∧ line.pts = []) ∧
    (∀ line ∈ comparisonPanel m, (line.linewidth = 5 / 2 ↔ line.label = "PADD 3")) := by
  refine ⟨?_, ?_, ?_, ?_⟩
  · intro p hp
    exact List.mem_map_of_mem _ hp
  · intro line hline
    obtain ⟨p, hp, rfl⟩ := List.mem_map.mp hline
    exact ⟨p, hp, rfl, rfl, rfl⟩
  · intro p hp hall
    refine ⟨_, List.mem_map_of_mem _ hp, rfl, ?_⟩
    refine List.filter_eq_nil_iff.mpr (fun row hrow => ?_)
    simpa using not_le.mpr (hall row hrow)
  · intro line hline
    obtain ⟨p, hp, rfl⟩ := List.mem_map.mp hline
    by_cases h3 : p.1 = "PADD 3"
    · simp [h3]
    · simp only [h3, if_false]
      constructor
      · intro hw
        norm_num at hw
      · intro hl
        exact absurd hl (by simp [h3])

theorem comparison_panel_content_witness :
    ({ label := "U.S. Total",
       pts := (normalize sampleData).filter (fun row => cutoffDate ≤ row.period),
       linewidth := if ("U.S. Total" : Region) = "PADD 3" then 5 / 2 else 3 / 2 } : CompLine)
      ∈ comparisonPanel [("U.S. Total", normalize sampleData)] :=
  (comparison_panel_content [("U.S. Total", normalize sampleData)]).1
    ("U.S. Total", normalize sampleData) (List.mem_singleton.mpr rfl)

/-- C7: every mapping entry contributes one volatility bar whose height is the
arithmetic mean of the defined entries of its `Volatility` column and whose
error bar is the sample standard deviation (not the standard error) of those
same entries: `seriesMean`/`seriesStd` agree with the spec's formulas
`specMeanR`/`specSampleStdR` whenever defined. -/
theorem volatility_bar_semantics (m : List (Region × RegionSeries))
    (p : Region × RegionSeries) (hp : p ∈ m) :
    (p.1, seriesMean (volCol p.2), seriesStd (volCol p.2)) ∈ volatilityBars m ∧
    (volCol p.2 ≠ [] → seriesMean (volCol p.2) = some (specMeanR (volCol p.2))) ∧
    (2 ≤ (volCol p.2).length → seriesStd (volCol p.2) = some (specSampleStdR (volCol p.2))) := by
  refine ⟨List.mem_map_of_mem _ hp, ?_, ?_⟩
  · intro hne
    rw [seriesMean, if_neg (by simpa [List.isEmpty_iff] using hne)]
    rfl
  · intro hlen
    rw [seriesStd, if_neg (by omega)]
    rfl

theorem volatility_bar_semantics_witness :
    ("U.S. Total", seriesMean (volCol (normalize sampleData)),
      seriesStd (volCol (normalize sampleData)))
      ∈ volatilityBars [("U.S. Total", normalize sampleData)] :=
  (volatility_bar_semantics [("U.S. Total", normalize sampleData)]
    ("U.S. Total", normalize sampleData) (List.mem_singleton.mpr rfl)).1

end Refinery
